import Mathlib

/-!
Verification of the weighted scoring and gap-prioritization logic shared by the
five dashboard variants (Civic_KPIs.py, civic_KPIs_prototype.py,
IMS_PIA_prototype.py, PIP_prototype.py, PIP_indicators_mexico_case.py).

Modelling conventions:
* Python floats are modelled as exact rationals (ℚ); the arithmetic of the
  scoring engine is plain +, -, *, / on small literals, so the rational model
  is exact where the float code is approximate.
* Python dicts are modelled as association lists `List (String × ℚ)` whose
  order is the dict's insertion order; dict access that can raise `KeyError`
  is modelled with `List.lookup`, returning `Option ℚ` (`none` = KeyError).
  Where every access in the source is within domain, a dict over a fixed key
  list is modelled as a value function applied to that key list.
* Python's `sorted(items, key=..., reverse=True)` is a stable descending
  sort: `sortByDesc` below is stable insertion sort by a rational key,
  descending, ties keeping original order.
-/

/-- Stable descending insertion: `x` is placed before the first element whose
key is ≤ `key x`, after all strictly greater keys. -/
def insertByDesc {α : Type} (key : α → ℚ) (x : α) : List α → List α
  | [] => [x]
  | y :: ys => if key x < key y then y :: insertByDesc key x ys else x :: y :: ys

/-- Stable descending insertion sort by a rational key, the model of Python's
`sorted(items, key=..., reverse=True)`. -/
def sortByDesc {α : Type} (key : α → ℚ) (l : List α) : List α :=
  l.foldr (insertByDesc key) []

theorem mem_insertByDesc {α : Type} (key : α → ℚ) (x : α) (l : List α) (a : α) :
    a ∈ insertByDesc key x l ↔ a = x ∨ a ∈ l := by
  induction l with
  | nil => simp [insertByDesc]
  | cons y ys ih =>
    simp only [insertByDesc]
    split
    · simp only [List.mem_cons, ih]
      tauto
    · simp [List.mem_cons]

theorem perm_insertByDesc {α : Type} (key : α → ℚ) (x : α) (l : List α) :
    (insertByDesc key x l).Perm (x :: l) := by
  induction l with
  | nil => exact List.Perm.refl _
  | cons y ys ih =>
    simp only [insertByDesc]
    split
    · exact (ih.cons y).trans (List.Perm.swap x y ys)
    · exact List.Perm.refl _

theorem perm_sortByDesc {α : Type} (key : α → ℚ) (l : List α) :
    (sortByDesc key l).Perm l := by
  induction l with
  | nil => exact List.Perm.refl _
  | cons x xs ih =>
    exact (perm_insertByDesc key x (sortByDesc key xs)).trans (ih.cons x)

theorem pairwise_insertByDesc {α : Type} (key : α → ℚ) (x : α) (l : List α)
    (h : l.Pairwise (fun a b => key b ≤ key a)) :
    (insertByDesc key x l).Pairwise (fun a b => key b ≤ key a) := by
  induction l with
  | nil => simp [insertByDesc]
  | cons y ys ih =>
    rcases List.pairwise_cons.mp h with ⟨hy, hys⟩
    simp only [insertByDesc]
    split
    · rename_i hlt
      refine List.pairwise_cons.mpr ⟨?_, ih hys⟩
      intro b hb
      rcases (mem_insertByDesc key x ys b).mp hb with rfl | hb2
      · exact le_of_lt hlt
      · exact hy b hb2
    · rename_i hge
      push_neg at hge
      refine List.pairwise_cons.mpr ⟨?_, h⟩
      intro b hb
      rcases List.mem_cons.mp hb with rfl | hb2
      · exact hge
      · exact le_trans (hy b hb2) hge

theorem pairwise_sortByDesc {α : Type} (key : α → ℚ) (l : List α) :
    (sortByDesc key l).Pairwise (fun a b => key b ≤ key a) := by
  induction l with
  | nil => simp [sortByDesc]
  | cons x xs ih => exact pairwise_insertByDesc key x (sortByDesc key xs) ih

theorem filter_insertByDesc {α : Type} (key : α → ℚ) (x : α) (l : List α) (v : ℚ) :
    (insertByDesc key x l).filter (fun a => decide (key a = v))
      = ((x :: l).filter (fun a => decide (key a = v))) := by
  induction l with
  | nil => rfl
  | cons y ys ih =>
    simp only [insertByDesc]
    split
    · rename_i hlt
      by_cases hx : key x = v
      · have hy : ¬ key y = v := by
          intro h2
          rw [hx, h2] at hlt
          exact lt_irrefl v hlt
        simp [List.filter_cons, hx, hy, ih]
      · simp [List.filter_cons, hx, ih]
    · rfl

theorem filter_sortByDesc {α : Type} (key : α → ℚ) (l : List α) (v : ℚ) :
    (sortByDesc key l).filter (fun a => decide (key a = v))
      = l.filter (fun a => decide (key a = v)) := by
  induction l with
  | nil => rfl
  | cons x xs ih =>
    have step : sortByDesc key (x :: xs) = insertByDesc key x (sortByDesc key xs) := rfl
    rw [step, filter_insertByDesc, List.filter_cons, List.filter_cons, ih]

/-- Category keys of civic_KPIs_prototype.py, in slider/dict insertion order. -/
def civicProtoCats : List String := ["Educate", "Perspective", "Help", "Update", "Inspire"]

/-- Weight normalization of civic_KPIs_prototype.py lines 40-50: when the raw
slider total is zero the code substitutes `total = 1` before dividing. -/
def civicProtoWeights (educate perspective help update inspire : ℚ) : List (String × ℚ) :=
  let total0 := educate + perspective + help + update + inspire
  let total := if total0 = 0 then 1 else total0
  [("Educate", educate / total), ("Perspective", perspective / total),
   ("Help", help / total), ("Update", update / total), ("Inspire", inspire / total)]

/-- Raw WeightVector of Civic_KPIs.py: the five slider values keyed by their
category names, in insertion order. -/
def civicKPIsRaw (educate perspective help update inspire : ℚ) : List (String × ℚ) :=
  [("Educate Me", educate), ("Give Me Perspective", perspective), ("Help Me", help),
   ("Update Me", update), ("Inspire Me", inspire)]

/-- Weight normalization of Civic_KPIs.py lines 27-48: divide by the total when
it is positive, otherwise fall back to 0.2 for each of the five categories. -/
def civicKPIsWeights (educate perspective help update inspire : ℚ) : List (String × ℚ) :=
  let total_weight := educate + perspective + help + update + inspire
  if 0 < total_weight then
    [("Educate Me", educate / total_weight), ("Give Me Perspective", perspective / total_weight),
     ("Help Me", help / total_weight), ("Update Me", update / total_weight),
     ("Inspire Me", inspire / total_weight)]
  else
    [("Educate Me", 0.2), ("Give Me Perspective", 0.2), ("Help Me", 0.2),
     ("Update Me", 0.2), ("Inspire Me", 0.2)]

/-- Weight normalization of IMS_PIA_prototype.py lines 270-281: divide by the
total when positive, otherwise the fixed fallback table 0.33/0.33/0.34. -/
def imsWeights (privacy_weight community_weight sustainability_weight : ℚ) :
    List (String × ℚ) :=
  let total_weight := privacy_weight + community_weight + sustainability_weight
  if 0 < total_weight then
    [("privacy", privacy_weight / total_weight),
     ("community", community_weight / total_weight),
     ("sustainability", sustainability_weight / total_weight)]
  else
    [("privacy", 0.33), ("community", 0.33), ("sustainability", 0.34)]

/-- Fixed category keys of PIP_prototype.py (the `categories` list of
calculate_weighted_score, also the key set of its weight and data dicts). -/
def pipCategories : List String :=
  ["democratic_empowerment", "information_integrity", "community_control",
   "user_rights_protection", "inclusion_access", "sustainability"]

/-- Dictionary over the six PIP categories in insertion order. -/
def pipVec (v1 v2 v3 v4 v5 v6 : ℚ) : List (String × ℚ) :=
  [("democratic_empowerment", v1), ("information_integrity", v2),
   ("community_control", v3), ("user_rights_protection", v4),
   ("inclusion_access", v5), ("sustainability", v6)]

/-- Weight normalization of PIP_prototype.py lines 176-193: plain division by
the slider total, with no zero guard (the slider minima keep it positive). -/
def pipNormalizedWeights (demo info community privacy access sustain : ℚ) :
    List (String × ℚ) :=
  let total_weights := demo + info + community + privacy + access + sustain
  pipVec (demo / total_weights) (info / total_weights) (community / total_weights)
    (privacy / total_weights) (access / total_weights) (sustain / total_weights)

/-- calculate_weighted_score of PIP_prototype.py lines 89-104: iterate the fixed
category list accumulating `total_score += data_row[category] * weight_dict[category]`;
a missing key (Python KeyError) is `none`. -/
def calculate_weighted_score (data_row weight_dict : List (String × ℚ)) : Option ℚ :=
  List.foldlM (fun total_score category => do
    let v ← List.lookup category data_row
    let w ← List.lookup category weight_dict
    pure (total_score + v * w)) 0 pipCategories

/-- calculate_public_interest_score of Civic_KPIs.py lines 74-84:
`sum(scores[k] * weights[k] for k in weights.keys())`. It iterates the keys of
`weights` only, so a category present in `scores` but absent from `weights` is
silently ignored; a key of `weights` missing from `scores` is a KeyError. -/
def calculate_public_interest_score (scores weights : List (String × ℚ)) : Option ℚ :=
  List.foldlM (fun acc kv => do
    let s ← List.lookup kv.fst scores
    pure (acc + s * kv.snd)) 0 weights

/-- calculate_overall_score of IMS_PIA_prototype.py lines 84-91 (identical in
PIP_indicators_mexico_case.py lines 77-84). -/
def calculate_overall_score (privacy community sustainability : ℚ)
    (weights : List (String × ℚ)) : Option ℚ := do
  let wp ← List.lookup "privacy" weights
  let wc ← List.lookup "community" weights
  let ws ← List.lookup "sustainability" weights
  pure (privacy * wp + community * wc + sustainability * ws)

/-- calculate_dimension_score of IMS_PIA_prototype.py lines 77-81 and
PIP_indicators_mexico_case.py lines 69-74: the stored response when the
dimension is a key of `responses`, else the silent default 0.5. -/
def calculate_dimension_score (responses : List (String × ℚ)) (dimension : String) : ℚ :=
  match List.lookup dimension responses with
  | some v => v
  | none => 0.5

/-- Gap dict of civic_KPIs_prototype.py line 112:
`{k: targets[k] - performance[k] for k in performance.keys()}` over the five
prototype categories; dicts with matching domains are modelled as value
functions applied to the shared key list. -/
def civicProtoGaps (targets performance : String → ℚ) : List (String × ℚ) :=
  civicProtoCats.map (fun k => (k, targets k - performance k))

/-- Weighted-gap dict of civic_KPIs_prototype.py line 207:
`{k: gaps[k] * weights[k] for k in gaps.keys()}`. -/
def civicProtoWeightedGaps (targets performance weights : String → ℚ) :
    List (String × ℚ) :=
  (civicProtoGaps targets performance).map (fun kv => (kv.fst, kv.snd * weights kv.fst))

/-- sorted_gaps of civic_KPIs_prototype.py line 208: the weighted-gap items
sorted descending by (signed) value, stably. -/
def civicProtoSortedGaps (targets performance weights : String → ℚ) :
    List (String × ℚ) :=
  sortByDesc Prod.snd (civicProtoWeightedGaps targets performance weights)

/-- Priority display loop of civic_KPIs_prototype.py lines 210-212: the first
`n` entries of sorted_gaps (n = 3 in the source), keeping only categories with
`gaps[category] > 0`. -/
def civicProtoTopPriorities (n : ℕ) (targets performance weights : String → ℚ) :
    List (String × ℚ) :=
  ((civicProtoSortedGaps targets performance weights).take n).filter
    (fun kv => decide (0 < targets kv.fst - performance kv.fst))

/-- Category keys of Civic_KPIs.py, in slider/dict insertion order. -/
def civicKPIsCats : List String :=
  ["Educate Me", "Give Me Perspective", "Help Me", "Update Me", "Inspire Me"]

/-- performance_gaps of Civic_KPIs.py lines 275-281: raw gap `0.7 - value` of
the latest data row against the fixed target 0.7. -/
def performance_gaps (latest : String → ℚ) : List (String × ℚ) :=
  civicKPIsCats.map (fun k => (k, 0.7 - latest k))

/-- sorted_gaps of Civic_KPIs.py line 284: performance_gaps items sorted
descending by raw gap, stably. -/
def civicKPIsSortedGaps (latest : String → ℚ) : List (String × ℚ) :=
  sortByDesc Prod.snd (performance_gaps latest)

/-- Priority display loop of Civic_KPIs.py lines 287-289: the first `n` entries
of sorted_gaps (n = 3 in the source), keeping only entries with `gap > 0`. -/
def civicKPIsTopPriorities (n : ℕ) (latest : String → ℚ) : List (String × ℚ) :=
  ((civicKPIsSortedGaps latest).take n).filter (fun kv => decide (0 < kv.snd))

/-- Row of the gap-analysis table of PIP_prototype.py lines 388-405. -/
structure GapRow where
  category : String
  performanceGap : ℚ
  strategicWeight : ℚ
  priorityScore : ℚ
  currentPerformance : ℚ
  targetPerformance : ℚ
deriving DecidableEq

/-- gap_analysis rows of PIP_prototype.py lines 388-405, built over
category_names in insertion order with the fixed targets of lines 262-269;
`Priority Score = abs(gap * weight)`. -/
def pipGapRows (c1 c2 c3 c4 c5 c6 w1 w2 w3 w4 w5 w6 : ℚ) : List GapRow :=
  [⟨"Democratic Empowerment", 0.70 - c1, w1, |(0.70 - c1) * w1|, c1, 0.70⟩,
   ⟨"Information Integrity", 0.80 - c2, w2, |(0.80 - c2) * w2|, c2, 0.80⟩,
   ⟨"Community Control", 0.60 - c3, w3, |(0.60 - c3) * w3|, c3, 0.60⟩,
   ⟨"User Rights Protection", 0.85 - c4, w4, |(0.85 - c4) * w4|, c4, 0.85⟩,
   ⟨"Inclusion & Access", 0.65 - c5, w5, |(0.65 - c5) * w5|, c5, 0.65⟩,
   ⟨"Sustainability", 0.75 - c6, w6, |(0.75 - c6) * w6|, c6, 0.75⟩]

/-- gap_df of PIP_prototype.py lines 407-408: the rows sorted by Priority Score
descending (pandas sort_values with ascending=False; ties modelled stably). -/
def pipGapDf (c1 c2 c3 c4 c5 c6 w1 w2 w3 w4 w5 w6 : ℚ) : List GapRow :=
  sortByDesc GapRow.priorityScore (pipGapRows c1 c2 c3 c4 c5 c6 w1 w2 w3 w4 w5 w6)

/-- Closed form of calculate_weighted_score on complete six-category vectors. -/
theorem pip_score_eq (p1 p2 p3 p4 p5 p6 w1 w2 w3 w4 w5 w6 : ℚ) :
    calculate_weighted_score (pipVec p1 p2 p3 p4 p5 p6) (pipVec w1 w2 w3 w4 w5 w6)
      = some (p1 * w1 + p2 * w2 + p3 * w3 + p4 * w4 + p5 * w5 + p6 * w6) := by
  simp [calculate_weighted_score, pipVec, pipCategories, List.lookup]

/-- Closed form of calculate_overall_score on a complete three-key weight dict. -/
theorem ims_score_eq (a b c u1 u2 u3 : ℚ) :
    calculate_overall_score a b c
        [("privacy", u1), ("community", u2), ("sustainability", u3)]
      = some (a * u1 + b * u2 + c * u3) := by
  simp [calculate_overall_score, List.lookup]

/-- C1 counterexample: on the all-zero WeightVector the civic_KPIs_prototype
normalization gives "Educate" weight 0, not the uniform 1/5, and the
IMS_PIA_prototype fallback gives "privacy" weight 0.33, not the uniform 1/3. -/
theorem C1_counterexample :
    List.lookup "Educate" (civicProtoWeights 0 0 0 0 0) = some 0 ∧ (0 : ℚ) ≠ 1 / 5
      ∧ List.lookup "privacy" (imsWeights 0 0 0) = some 0.33
      ∧ (0.33 : ℚ) ≠ 1 / 3 := by
  refine ⟨?_, by norm_num, ?_, by norm_num⟩
  · simp [civicProtoWeights, List.lookup]
  · simp [imsWeights, List.lookup]

/-- C1 amended: on the all-zero WeightVector, Civic_KPIs.py returns the uniform
1/5 for each of its five categories, but civic_KPIs_prototype.py returns weight
0 for every category (it substitutes total = 1 before dividing), and
IMS_PIA_prototype.py returns the fixed fallback table 0.33/0.33/0.34. -/
theorem C1_zero_weight_fallbacks :
    civicKPIsWeights 0 0 0 0 0
        = [("Educate Me", 1 / 5), ("Give Me Perspective", 1 / 5), ("Help Me", 1 / 5),
           ("Update Me", 1 / 5), ("Inspire Me", 1 / 5)]
      ∧ civicProtoWeights 0 0 0 0 0
        = [("Educate", 0), ("Perspective", 0), ("Help", 0), ("Update", 0), ("Inspire", 0)]
      ∧ imsWeights 0 0 0
        = [("privacy", 0.33), ("community", 0.33), ("sustainability", 0.34)] := by
  refine ⟨?_, ?_, ?_⟩ <;> norm_num [civicKPIsWeights, civicProtoWeights, imsWeights]

/-- C2 counterexample: all performance values lie in [0,1] and the weights sum
to 1, yet the composite score is 2 ∉ [0,1], because one weight is negative. -/
theorem C2_counterexample :
    (∀ kv ∈ pipVec 1 0 0 0 0 0, 0 ≤ kv.snd ∧ kv.snd ≤ 1)
      ∧ ((pipVec 2 (-1) 0 0 0 0).map Prod.snd).sum = 1
      ∧ calculate_weighted_score (pipVec 1 0 0 0 0 0) (pipVec 2 (-1) 0 0 0 0) = some 2
      ∧ ¬ ((2 : ℚ) ≤ 1) := by
  refine ⟨?_, ?_, ?_, by norm_num⟩
  · intro kv hkv
    simp only [pipVec, List.mem_cons, List.not_mem_nil, or_false] at hkv
    rcases hkv with rfl | rfl | rfl | rfl | rfl | rfl <;> norm_num
  · norm_num [pipVec]
  · rw [pip_score_eq]
    norm_num

/-- C2 amended: on complete six-category vectors the composite score equals
Σ performance[c]·weights[c]; when every performance value lies in [0,1], every
weight is non-negative, and the weights sum to 1, the score lies in [0,1]; the
same holds for the three-dimension calculate_overall_score. -/
theorem C2_composite_score_bounds (p1 p2 p3 p4 p5 p6 w1 w2 w3 w4 w5 w6 a b c u1 u2 u3 : ℚ)
    (hp : (0 ≤ p1 ∧ p1 ≤ 1) ∧ (0 ≤ p2 ∧ p2 ≤ 1) ∧ (0 ≤ p3 ∧ p3 ≤ 1)
        ∧ (0 ≤ p4 ∧ p4 ≤ 1) ∧ (0 ≤ p5 ∧ p5 ≤ 1) ∧ (0 ≤ p6 ∧ p6 ≤ 1))
    (hw : 0 ≤ w1 ∧ 0 ≤ w2 ∧ 0 ≤ w3 ∧ 0 ≤ w4 ∧ 0 ≤ w5 ∧ 0 ≤ w6)
    (hsum : w1 + w2 + w3 + w4 + w5 + w6 = 1)
    (hq : (0 ≤ a ∧ a ≤ 1) ∧ (0 ≤ b ∧ b ≤ 1) ∧ (0 ≤ c ∧ c ≤ 1))
    (hu : 0 ≤ u1 ∧ 0 ≤ u2 ∧ 0 ≤ u3) (husum : u1 + u2 + u3 = 1) :
    calculate_weighted_score (pipVec p1 p2 p3 p4 p5 p6) (pipVec w1 w2 w3 w4 w5 w6)
        = some (p1 * w1 + p2 * w2 + p3 * w3 + p4 * w4 + p5 * w5 + p6 * w6)
      ∧ 0 ≤ p1 * w1 + p2 * w2 + p3 * w3 + p4 * w4 + p5 * w5 + p6 * w6
      ∧ p1 * w1 + p2 * w2 + p3 * w3 + p4 * w4 + p5 * w5 + p6 * w6 ≤ 1
      ∧ calculate_overall_score a b c
          [("privacy", u1), ("community", u2), ("sustainability", u3)]
        = some (a * u1 + b * u2 + c * u3)
      ∧ 0 ≤ a * u1 + b * u2 + c * u3 ∧ a * u1 + b * u2 + c * u3 ≤ 1 := by
  obtain ⟨hp1, hp2, hp3, hp4, hp5, hp6⟩ := hp
  obtain ⟨hw1, hw2, hw3, hw4, hw5, hw6⟩ := hw
  obtain ⟨ha, hb, hc⟩ := hq
  obtain ⟨hu1, hu2, hu3⟩ := hu
  refine ⟨pip_score_eq p1 p2 p3 p4 p5 p6 w1 w2 w3 w4 w5 w6, ?_, ?_,
    ims_score_eq a b c u1 u2 u3, ?_, ?_⟩
  · have := mul_nonneg hp1.1 hw1
    have := mul_nonneg hp2.1 hw2
    have := mul_nonneg hp3.1 hw3
    have := mul_nonneg hp4.1 hw4
    have := mul_nonneg hp5.1 hw5
    have := mul_nonneg hp6.1 hw6
    linarith
  · have h1 : p1 * w1 ≤ w1 := mul_le_of_le_one_left hw1 hp1.2
    have h2 : p2 * w2 ≤ w2 := mul_le_of_le_one_left hw2 hp2.2
    have h3 : p3 * w3 ≤ w3 := mul_le_of_le_one_left hw3 hp3.2
    have h4 : p4 * w4 ≤ w4 := mul_le_of_le_one_left hw4 hp4.2
    have h5 : p5 * w5 ≤ w5 := mul_le_of_le_one_left hw5 hp5.2
    have h6 : p6 * w6 ≤ w6 := mul_le_of_le_one_left hw6 hp6.2
    linarith
  · have := mul_nonneg ha.1 hu1
    have := mul_nonneg hb.1 hu2
    have := mul_nonneg hc.1 hu3
    linarith
  · have h1 : a * u1 ≤ u1 := mul_le_of_le_one_left hu1 ha.2
    have h2 : b * u2 ≤ u2 := mul_le_of_le_one_left hu2 hb.2
    have h3 : c * u3 ≤ u3 := mul_le_of_le_one_left hu3 hc.2
    linarith

/-- Witness for C2_composite_score_bounds at the spec's worked scenario
(performance 0.6/0.4/0.8, weights 0.4/0.3/0.3, score 0.6). -/
theorem C2_composite_score_bounds_witness :
    calculate_weighted_score (pipVec 0.6 0.4 0.8 0 0 0) (pipVec 0.4 0.3 0.3 0 0 0)
        = some (0.6 * 0.4 + 0.4 * 0.3 + 0.8 * 0.3 + 0 * 0 + 0 * 0 + 0 * 0)
      ∧ 0 ≤ 0.6 * 0.4 + 0.4 * 0.3 + 0.8 * 0.3 + 0 * 0 + 0 * 0 + (0 : ℚ) * 0
      ∧ 0.6 * 0.4 + 0.4 * 0.3 + 0.8 * 0.3 + 0 * 0 + 0 * 0 + (0 : ℚ) * 0 ≤ 1
      ∧ calculate_overall_score 0.6 0.4 0.8
          [("privacy", 0.4), ("community", 0.3), ("sustainability", 0.3)]
        = some (0.6 * 0.4 + 0.4 * 0.3 + 0.8 * 0.3)
      ∧ 0 ≤ 0.6 * 0.4 + 0.4 * 0.3 + (0.8 : ℚ) * 0.3
      ∧ 0.6 * 0.4 + 0.4 * 0.3 + (0.8 : ℚ) * 0.3 ≤ 1 :=
  C2_composite_score_bounds 0.6 0.4 0.8 0 0 0 0.4 0.3 0.3 0 0 0 0.6 0.4 0.8 0.4 0.3 0.3
    (by norm_num) (by norm_num) (by norm_num) (by norm_num) (by norm_num) (by norm_num)

/-- C3 (confirmed): for non-negative raw weights with at least one positive
value, the Civic_KPIs.py and PIP_prototype.py normalizations return weights
summing to exactly 1 (so within the 1e-9 tolerance) over exactly the key set
of the raw input vector. -/
theorem C3_normalized_weights_sum_one (e p h u i d f c r a s : ℚ)
    (hraw : 0 ≤ e ∧ 0 ≤ p ∧ 0 ≤ h ∧ 0 ≤ u ∧ 0 ≤ i)
    (hpos : 0 < e ∨ 0 < p ∨ 0 < h ∨ 0 < u ∨ 0 < i)
    (hraw2 : 0 ≤ d ∧ 0 ≤ f ∧ 0 ≤ c ∧ 0 ≤ r ∧ 0 ≤ a ∧ 0 ≤ s)
    (hpos2 : 0 < d ∨ 0 < f ∨ 0 < c ∨ 0 < r ∨ 0 < a ∨ 0 < s) :
    ((civicKPIsWeights e p h u i).map Prod.snd).sum = 1
      ∧ (civicKPIsWeights e p h u i).map Prod.fst = (civicKPIsRaw e p h u i).map Prod.fst
      ∧ ((pipNormalizedWeights d f c r a s).map Prod.snd).sum = 1
      ∧ (pipNormalizedWeights d f c r a s).map Prod.fst
        = (pipVec d f c r a s).map Prod.fst := by
  obtain ⟨he, hp2, hh, hu2, hi2⟩ := hraw
  obtain ⟨hd, hf, hc, hr, ha, hs⟩ := hraw2
  have ht : 0 < e + p + h + u + i := by
    rcases hpos with h1 | h1 | h1 | h1 | h1 <;> linarith
  have ht2 : 0 < d + f + c + r + a + s := by
    rcases hpos2 with h1 | h1 | h1 | h1 | h1 | h1 <;> linarith
  have ht' : e + p + h + u + i ≠ 0 := ne_of_gt ht
  have ht2' : d + f + c + r + a + s ≠ 0 := ne_of_gt ht2
  refine ⟨?_, ?_, ?_, rfl⟩
  · simp only [civicKPIsWeights, if_pos ht, List.map_cons, List.map_nil,
      List.sum_cons, List.sum_nil, add_zero]
    field_simp
    ring
  · simp [civicKPIsWeights, civicKPIsRaw, if_pos ht]
  · simp only [pipNormalizedWeights, pipVec, List.map_cons, List.map_nil,
      List.sum_cons, List.sum_nil, add_zero]
    field_simp
    ring

/-- Witness for C3_normalized_weights_sum_one at the spec scenario's raw
weights 4/3/3 (two zero sliders) and the PIP default slider values. -/
theorem C3_normalized_weights_sum_one_witness :
    ((civicKPIsWeights 4 3 3 0 0).map Prod.snd).sum = 1
      ∧ (civicKPIsWeights 4 3 3 0 0).map Prod.fst = (civicKPIsRaw 4 3 3 0 0).map Prod.fst
      ∧ ((pipNormalizedWeights 0.25 0.2 0.2 0.15 0.1 0.1).map Prod.snd).sum = 1
      ∧ (pipNormalizedWeights 0.25 0.2 0.2 0.15 0.1 0.1).map Prod.fst
        = (pipVec 0.25 0.2 0.2 0.15 0.1 0.1).map Prod.fst :=
  C3_normalized_weights_sum_one 4 3 3 0 0 0.25 0.2 0.2 0.15 0.1 0.1
    (by norm_num) (by norm_num) (by norm_num) (by norm_num)

/-- C4 counterexample: with these in-range inputs the PIP_prototype gap table,
ordered by Priority Score = |gap·weight|, puts the strongly over-performing
"Democratic Empowerment" row (signed weighted gap -0.27) first, ahead of rows
with positive weighted gap, so the rows are not in descending order of the
signed weighted gap and an over-performing category does not rank last. -/
theorem C4_counterexample :
    ¬ (pipGapDf 1 0.7 0.59 0.83 0.62 0.71 0.9 0.2 0.1 0.1 0.1 0.1).Pairwise
        (fun x y => y.performanceGap * y.strategicWeight
          ≤ x.performanceGap * x.strategicWeight) := by
  intro hcontra
  have hdf : pipGapDf 1 0.7 0.59 0.83 0.62 0.71 0.9 0.2 0.1 0.1 0.1 0.1
      = [⟨"Democratic Empowerment", -0.3, 0.9, 0.27, 1, 0.7⟩,
         ⟨"Information Integrity", 0.1, 0.2, 0.02, 0.7, 0.8⟩,
         ⟨"Sustainability", 0.04, 0.1, 0.004, 0.71, 0.75⟩,
         ⟨"Inclusion & Access", 0.03, 0.1, 0.003, 0.62, 0.65⟩,
         ⟨"User Rights Protection", 0.02, 0.1, 0.002, 0.83, 0.85⟩,
         ⟨"Community Control", 0.01, 0.1, 0.001, 0.59, 0.6⟩] := by
    norm_num [pipGapDf, pipGapRows, sortByDesc, insertByDesc, abs_of_pos, abs_of_neg]
  rw [hdf] at hcontra
  have h2 := (List.pairwise_cons.mp hcontra).1
      ⟨"Information Integrity", 0.1, 0.2, 0.02, 0.7, 0.8⟩ (List.mem_cons_self _ _)
  norm_num at h2

/-- C4 amended: the weighted ranking of civic_KPIs_prototype.py orders entries
in descending order of the signed weighted_gap = gap·weight, stably, as a
permutation of the weighted-gap dict whose value at each category is
(target − performance)·weight; the PIP_prototype gap table instead orders its
rows in descending order of Priority Score = |gap·weight|, so there a strongly
over-performing category can rank first. -/
theorem C4_weighted_gap_rankings (targets performance weights : String → ℚ)
    (c1 c2 c3 c4 c5 c6 w1 w2 w3 w4 w5 w6 : ℚ) :
    (civicProtoSortedGaps targets performance weights).Pairwise
        (fun x y => y.snd ≤ x.snd)
      ∧ (civicProtoSortedGaps targets performance weights).Perm
          (civicProtoWeightedGaps targets performance weights)
      ∧ civicProtoWeightedGaps targets performance weights
        = civicProtoCats.map (fun k => (k, (targets k - performance k) * weights k))
      ∧ (pipGapDf c1 c2 c3 c4 c5 c6 w1 w2 w3 w4 w5 w6).Pairwise
          (fun x y => y.priorityScore ≤ x.priorityScore)
      ∧ (pipGapRows c1 c2 c3 c4 c5 c6 w1 w2 w3 w4 w5 w6).map GapRow.priorityScore
        = (pipGapRows c1 c2 c3 c4 c5 c6 w1 w2 w3 w4 w5 w6).map
            (fun row => |row.performanceGap * row.strategicWeight|) :=
  ⟨pairwise_sortByDesc Prod.snd _, perm_sortByDesc Prod.snd _, rfl,
    pairwise_sortByDesc GapRow.priorityScore _, rfl⟩

/-- C5 (confirmed): for every n, every entry of the displayed top-n priorities
slice has gap > 0 — entries with gap ≤ 0 never appear in any slice — while the
full sorted result retains every gap entry (it is a permutation of the gap
dict); this holds in both Civic_KPIs.py and civic_KPIs_prototype.py. -/
theorem C5_priorities_require_positive_gap (n : ℕ)
    (latest targets performance weights : String → ℚ) :
    (∀ kv ∈ civicKPIsTopPriorities n latest, 0 < kv.snd)
      ∧ (civicKPIsSortedGaps latest).Perm (performance_gaps latest)
      ∧ (∀ kv ∈ civicProtoTopPriorities n targets performance weights,
          0 < targets kv.fst - performance kv.fst)
      ∧ (civicProtoSortedGaps targets performance weights).Perm
          (civicProtoWeightedGaps targets performance weights) := by
  refine ⟨?_, perm_sortByDesc Prod.snd _, ?_, perm_sortByDesc Prod.snd _⟩
  · intro kv hkv
    have := List.of_mem_filter hkv
    simpa using this
  · intro kv hkv
    have := List.of_mem_filter hkv
    simpa using this

/-- C7 (confirmed): the raw-gap ranking of Civic_KPIs.py orders entries in
descending order of gap = target − performance, and both ranking modes are
stable — for every key value, the entries carrying that key appear in the
same order as in the original insertion-ordered dict. -/
theorem C7_raw_gap_ranking_stable (latest targets performance weights : String → ℚ) :
    (civicKPIsSortedGaps latest).Pairwise (fun x y => y.snd ≤ x.snd)
      ∧ (∀ v : ℚ, (civicKPIsSortedGaps latest).filter (fun kv => decide (kv.snd = v))
          = (performance_gaps latest).filter (fun kv => decide (kv.snd = v)))
      ∧ (∀ v : ℚ, (civicProtoSortedGaps targets performance weights).filter
            (fun kv => decide (kv.snd = v))
          = (civicProtoWeightedGaps targets performance weights).filter
            (fun kv => decide (kv.snd = v))) :=
  ⟨pairwise_sortByDesc Prod.snd _,
    fun v => filter_sortByDesc Prod.snd _ v,
    fun v => filter_sortByDesc Prod.snd _ v⟩

/-- C8 (confirmed): the composite score is linear in each performance entry
with the other entries and the weights held fixed — raising performance[c] by
d changes the score by exactly weights[c]·d, for each of the six categories. -/
theorem C8_score_linear_in_each_category (p1 p2 p3 p4 p5 p6 w1 w2 w3 w4 w5 w6 d : ℚ) :
    calculate_weighted_score (pipVec (p1 + d) p2 p3 p4 p5 p6) (pipVec w1 w2 w3 w4 w5 w6)
        = (calculate_weighted_score (pipVec p1 p2 p3 p4 p5 p6)
            (pipVec w1 w2 w3 w4 w5 w6)).map (fun x => x + w1 * d)
      ∧ calculate_weighted_score (pipVec p1 (p2 + d) p3 p4 p5 p6) (pipVec w1 w2 w3 w4 w5 w6)
        = (calculate_weighted_score (pipVec p1 p2 p3 p4 p5 p6)
            (pipVec w1 w2 w3 w4 w5 w6)).map (fun x => x + w2 * d)
      ∧ calculate_weighted_score (pipVec p1 p2 (p3 + d) p4 p5 p6) (pipVec w1 w2 w3 w4 w5 w6)
        = (calculate_weighted_score (pipVec p1 p2 p3 p4 p5 p6)
            (pipVec w1 w2 w3 w4 w5 w6)).map (fun x => x + w3 * d)
      ∧ calculate_weighted_score (pipVec p1 p2 p3 (p4 + d) p5 p6) (pipVec w1 w2 w3 w4 w5 w6)
        = (calculate_weighted_score (pipVec p1 p2 p3 p4 p5 p6)
            (pipVec w1 w2 w3 w4 w5 w6)).map (fun x => x + w4 * d)
      ∧ calculate_weighted_score (pipVec p1 p2 p3 p4 (p5 + d) p6) (pipVec w1 w2 w3 w4 w5 w6)
        = (calculate_weighted_score (pipVec p1 p2 p3 p4 p5 p6)
            (pipVec w1 w2 w3 w4 w5 w6)).map (fun x => x + w5 * d)
      ∧ calculate_weighted_score (pipVec p1 p2 p3 p4 p5 (p6 + d)) (pipVec w1 w2 w3 w4 w5 w6)
        = (calculate_weighted_score (pipVec p1 p2 p3 p4 p5 p6)
            (pipVec w1 w2 w3 w4 w5 w6)).map (fun x => x + w6 * d) := by
  refine ⟨?_, ?_, ?_, ?_, ?_, ?_⟩ <;>
    · rw [pip_score_eq, pip_score_eq]
      simp only [Option.map_some', Option.some.injEq]
      ring

/-- C9 (confirmed): normalization, composite scoring and gap ranking are pure
functions of their inputs — two invocations on identical input vectors yield
identical outputs, with no hidden state between calls. -/
theorem C9_deterministic (e1 q1 h1 u1 i1 e2 q2 h2 u2 i2 : ℚ)
    (scores1 wdict1 scores2 wdict2 : List (String × ℚ))
    (t1 pf1 wf1 t2 pf2 wf2 : String → ℚ)
    (hw : (e1, q1, h1, u1, i1) = (e2, q2, h2, u2, i2))
    (hs : (scores1, wdict1) = (scores2, wdict2))
    (hg : (t1, pf1, wf1) = (t2, pf2, wf2)) :
    civicKPIsWeights e1 q1 h1 u1 i1 = civicKPIsWeights e2 q2 h2 u2 i2
      ∧ calculate_public_interest_score scores1 wdict1
        = calculate_public_interest_score scores2 wdict2
      ∧ civicProtoSortedGaps t1 pf1 wf1 = civicProtoSortedGaps t2 pf2 wf2 := by
  simp only [Prod.mk.injEq] at hw hs hg
  obtain ⟨rfl, rfl, rfl, rfl, rfl⟩ := hw
  obtain ⟨rfl, rfl⟩ := hs
  obtain ⟨rfl, rfl, rfl⟩ := hg
  exact ⟨rfl, rfl, rfl⟩

/-- Witness for C9_deterministic at concrete identical inputs. -/
theorem C9_deterministic_witness :
    civicKPIsWeights 4 3 3 0 0 = civicKPIsWeights 4 3 3 0 0
      ∧ calculate_public_interest_score [("Educate Me", 0.5)] [("Educate Me", 1)]
        = calculate_public_interest_score [("Educate Me", 0.5)] [("Educate Me", 1)]
      ∧ civicProtoSortedGaps (fun _ => 0.7) (fun _ => 0.5) (fun _ => 0.2)
        = civicProtoSortedGaps (fun _ => 0.7) (fun _ => 0.5) (fun _ => 0.2) :=
  C9_deterministic 4 3 3 0 0 4 3 3 0 0
    [("Educate Me", 0.5)] [("Educate Me", 1)] [("Educate Me", 0.5)] [("Educate Me", 1)]
    (fun _ => 0.7) (fun _ => 0.5) (fun _ => 0.2)
    (fun _ => 0.7) (fun _ => 0.5) (fun _ => 0.2) rfl rfl rfl

/-- C6 code evaluation: with a performance dict covering all five categories
but a weights dict covering only "Educate Me", calculate_public_interest_score
silently returns the score 0.5 computed from the one shared category instead
of failing; calculate_dimension_score likewise silently defaults a missing
dimension to 0.5. -/
theorem C6_silent_domain_mismatch :
    calculate_public_interest_score
        [("Educate Me", 0.5), ("Give Me Perspective", 0.5), ("Help Me", 0.5),
         ("Update Me", 0.5), ("Inspire Me", 0.5)]
        [("Educate Me", 1)] = some 0.5
      ∧ calculate_dimension_score [] "privacy" = 0.5 := by
  constructor
  · simp [calculate_public_interest_score, List.lookup]
  · rfl

/-- C10 (confirmed): calculate_dimension_score returns the stored response
when the dimension is a key of the responses dict and the silent default 0.5
when it is absent; in this total model it never fails. -/
theorem C10_dimension_score_default (responses : List (String × ℚ)) (dimension : String) :
    (∀ v : ℚ, List.lookup dimension responses = some v
        → calculate_dimension_score responses dimension = v)
      ∧ (List.lookup dimension responses = none
        → calculate_dimension_score responses dimension = 0.5) := by
  constructor
  · intro v hv
    simp [calculate_dimension_score, hv]
  · intro hv
    simp [calculate_dimension_score, hv]
